import Mathlib

/-!
Verification development for the PubSummarizer repository
(src/main.py, src/pdf_scraper.py, src/sql.py).

The Python sources are shallowly embedded: pure fragments become Lean
functions; external effects (HTTP responses, the PDF text extractor, the
summarizer, browser attempts) become explicit oracle parameters; the
record store becomes a list of rows threaded through the pipeline; side
effects that the claims talk about (invoking the downloader / extractor /
summarizer, writing a record, sleeping) are recorded in an explicit event
trace.
-/

namespace PubSummarizer

/-- Configuration values read from config.yaml that the per-paper pipeline
in main.py uses (scraping.platform / conference / year / track /
submission_type / delay, paths.output_dir, summarization.content_cap).
The summarizer framing options are absorbed into the summarizer oracle. -/
structure Config where
  conference : String
  year : Nat
  track : String
  submission_type : String
  platform : String
  output_dir : String
  delay : Nat
  /-- content cap with Python truthiness: 0 means no cap (main.py line 68). -/
  content_cap : Nat
deriving DecidableEq

/-- Model of a requests response: status code plus raw body
(bytes modelled as a string). -/
structure HttpResponse where
  status_code : Nat
  content : String
deriving DecidableEq

/-- Embedding of download_pdf (pdf_scraper.py lines 188-203).
The response for the single requests.get call is passed as an oracle.
Returns the value download_pdf returns (the file path, or none for the
Python None) together with the list of (path, bytes) writes performed.
os.path.join is modelled as slash concatenation (filename is relative,
output_dir has no trailing slash). -/
def download_pdf (filename url output_dir : String) (resp : HttpResponse) :
    Option String × List (String × String) :=
  let _ := url
  if resp.status_code = 200 then
    let filepath := output_dir ++ "/" ++ filename
    (some filepath, [(filepath, resp.content)])
  else
    (none, [])

/-- Printable ASCII range 0x20 to 0x7E. -/
def isPrintableAscii (c : Char) : Bool :=
  32 ≤ c.toNat && c.toNat ≤ 126

/-- Collapse every run of consecutive spaces into a single space. -/
def collapseSpaces : List Char → List Char
  | [] => []
  | [c] => [c]
  | c :: c2 :: cs =>
    if c = ' ' && c2 = ' ' then collapseSpaces (c2 :: cs)
    else c :: collapseSpaces (c2 :: cs)

/-- Modelled from the spec: clean_text is defined in pdf_parser.py, which
is not among the source files; main.py line 50 imports and calls it, and
spec section 4.3 describes the normalization as stripping characters
outside the printable ASCII range and collapsing whitespace into a single
separator. Modelled as: keep printable ASCII, collapse space runs. -/
def clean_text (s : String) : String :=
  String.mk (collapseSpaces (s.data.filter isPrintableAscii))

/-- Python str.replace with a one-character pattern is a per-character
substitution; models the replace of space by underscore in main.py
line 52. -/
def replaceChar (s : String) (a b : Char) : String :=
  String.mk (s.data.map fun c => if c = a then b else c)

/-- Identifier derivation from main.py lines 50-52: the cleaned title with
spaces replaced by underscores, then the conference / year / track /
submission type / platform appended with underscore separators. -/
def deriveId (cfg : Config) (title : String) : String :=
  replaceChar (clean_text title) ' ' '_' ++ "_" ++ cfg.conference ++ "_" ++
    toString cfg.year ++ "_" ++ cfg.track ++ "_" ++ cfg.submission_type ++
    "_" ++ cfg.platform

/-- The record main.py lines 78-90 constructs for the store. Field names
follow the keyword arguments of the Paper constructor call in main.py.
(The column set actually declared by the Paper model in sql.py is listed
separately as paperTableColumns.) -/
structure Paper where
  id : String
  title : String
  conference : String
  year : Nat
  track : String
  submission_type : String
  platform : String
  pdf_url : String
  pdf_path : String
  content : String
  summary : String
deriving DecidableEq

/-- Embedding of Database.get_papers with an id filter
(sql.py lines 41-48): all rows whose id column equals the given value. -/
def get_papers (db : List Paper) (pid : String) : List Paper :=
  db.filter fun p => p.id == pid

/-- Embedding of Database.add_entry (sql.py lines 35-39): session.add plus
commit issues a plain INSERT. Because id is declared as the primary key
(sql.py line 13), committing a row whose id already exists violates the
UNIQUE constraint and raises, leaving the store unchanged; otherwise the
row is appended. -/
def add_entry (db : List Paper) (p : Paper) : Except String (List Paper) :=
  if db.any (fun q => q.id == p.id) then Except.error "IntegrityError"
  else Except.ok (db ++ [p])

/-- Column set declared by the Paper model in sql.py lines 10-21, in
declaration order. -/
def paperTableColumns : List String :=
  ["id", "platform", "collection", "title", "pdf_url", "pdf_path",
   "content", "summary"]

/-- Keyword arguments passed to the Paper constructor by main.py lines
78-90, in call order. -/
def orchestratorRecordFields : List String :=
  ["id", "title", "conference", "year", "track", "submission_type",
   "platform", "pdf_url", "pdf_path", "content", "summary"]

/-- Model of the Paper constructor call at main.py line 78. The
SQLAlchemy declarative constructor raises TypeError when a keyword
argument names no declared column, so construction succeeds exactly when
every keyword argument main.py passes (orchestratorRecordFields) is a
column of the Paper model (paperTableColumns). Since sql.py declares no
conference, year, track or submission_type columns, this check fails and
the constructor raises before any insert is attempted. -/
def paperCtor (p : Paper) : Except String Paper :=
  if orchestratorRecordFields.all (fun f => paperTableColumns.contains f)
  then Except.ok p
  else Except.error "TypeError: conference is an invalid keyword argument for Paper"

/-- Truthiness of the skip test in main.py line 56:
existing_papers nonempty and the first returned row has a truthy
(non-empty) summary. -/
def alreadyProcessed : List Paper → Bool
  | [] => false
  | p :: _ => p.summary != ""

/-- Observable side effects of the per-paper loop body, in order:
invoking download_pdf, parse_and_clean_pdf, summarize_text, db.add_entry,
and time.sleep with the configured delay. -/
inductive Event where
  | evDownload
  | evExtract
  | evSummarize
  | evAddEntry
  | evSleep (secs : Nat)
deriving DecidableEq

/-- Outcome of one iteration of the per-paper loop in main.py:
skipped (line 58), download failure (line 64), an uncaught exception from
the extractor or summarizer, an uncaught TypeError from the Paper
constructor (line 78), an uncaught exception from add_entry (line 93), or
a persisted record followed by the sleep. -/
inductive StepOutcome where
  | skipped
  | downloadFailed
  | stageError (err : String)
  | ctorError (err : String)
  | storeError (err : String)
  | persisted (p : Paper)
deriving DecidableEq

deriving instance DecidableEq for Except

/-- One listing entry (title, pdf url) as produced by the listing fetcher,
bundled with the oracles for the external effects this entry would
trigger: the HTTP response for its pdf url, and the results of
parse_and_clean_pdf and summarize_text (either a value or a raised
exception). -/
structure EntryWorld where
  title : String
  url : String
  httpResp : HttpResponse
  extract : Except String String
  summarize : Except String String
deriving DecidableEq

/-- Embedding of the body of the per-paper loop, main.py lines 48-96.
Returns the outcome, the event trace and the resulting store. -/
def processEntry (cfg : Config) (db : List Paper) (e : EntryWorld) :
    StepOutcome × List Event × List Paper :=
  let processed_title := clean_text e.title
  let processed_id := deriveId cfg e.title
  let existing_papers := get_papers db processed_id
  if alreadyProcessed existing_papers then
    (StepOutcome.skipped, [], db)
  else
    match download_pdf (processed_id ++ ".pdf") e.url cfg.output_dir e.httpResp with
    | (none, _) => (StepOutcome.downloadFailed, [Event.evDownload], db)
    | (some pdf_path, _) =>
      match e.extract with
      | Except.error err =>
        (StepOutcome.stageError err, [Event.evDownload, Event.evExtract], db)
      | Except.ok raw_content =>
        let content :=
          if cfg.content_cap ≠ 0 then raw_content.take cfg.content_cap
          else raw_content
        match e.summarize with
        | Except.error err =>
          (StepOutcome.stageError err,
            [Event.evDownload, Event.evExtract, Event.evSummarize], db)
        | Except.ok summary =>
          match paperCtor
            { id := processed_id, title := processed_title,
              conference := cfg.conference, year := cfg.year,
              track := cfg.track, submission_type := cfg.submission_type,
              platform := cfg.platform, pdf_url := e.url,
              pdf_path := pdf_path, content := content,
              summary := summary } with
          | Except.error err =>
            (StepOutcome.ctorError err,
              [Event.evDownload, Event.evExtract, Event.evSummarize], db)
          | Except.ok paper_entry =>
            match add_entry db paper_entry with
            | Except.error err =>
              (StepOutcome.storeError err,
                [Event.evDownload, Event.evExtract, Event.evSummarize,
                 Event.evAddEntry], db)
            | Except.ok db2 =>
              (StepOutcome.persisted paper_entry,
                [Event.evDownload, Event.evExtract, Event.evSummarize,
                 Event.evAddEntry, Event.evSleep cfg.delay], db2)

/-- Result of running the whole per-paper for loop: either the loop
finished (main.py line 98 is reached) or an uncaught exception aborted
the run while iterating. -/
inductive BatchResult where
  | finished (db : List Paper)
  | abortedRun (err : String) (db : List Paper)
deriving DecidableEq

/-- Whether the loop ran to completion. -/
def BatchResult.isFinished : BatchResult → Bool
  | BatchResult.finished _ => true
  | BatchResult.abortedRun _ _ => false

/-- Embedding of the for loop over listing entries in main.py lines
48-96: the store is threaded through, skip and download-failure outcomes
continue with the next entry, and an uncaught exception (extractor,
summarizer, Paper constructor, or add_entry) aborts the whole loop. -/
def runBatch (cfg : Config) (db : List Paper) :
    List EntryWorld → BatchResult × List Event
  | [] => (BatchResult.finished db, [])
  | e :: rest =>
    match processEntry cfg db e with
    | (StepOutcome.stageError err, evs, db2) =>
      (BatchResult.abortedRun err db2, evs)
    | (StepOutcome.ctorError err, evs, db2) =>
      (BatchResult.abortedRun err db2, evs)
    | (StepOutcome.storeError err, evs, db2) =>
      (BatchResult.abortedRun err db2, evs)
    | (_, evs, db2) =>
      let r := runBatch cfg db2 rest
      (r.1, evs ++ r.2)

/-- Heights observed by the scroll loop in pdf_scraper.py lines 125-136:
heightSeq heights h0 k is the value of last_height at the start of the
iteration that performs scroll number k (h0 is the initial
document.body.scrollHeight, heights k is the height read after scroll
number k). -/
def heightSeq (heights : Nat → Nat) (h0 : Nat) : Nat → Nat
  | 0 => h0
  | k + 1 => heights k

/-- Embedding of the scroll loop in pdf_scraper.py lines 125-136.
The loop state is re-indexed: idx is the number of scrolls already
performed (equal to scroll_attempts at the loop head), and
remaining = max_scroll_attempts - scroll_attempts, so the loop guard
scroll_attempts < max_scroll_attempts becomes remaining > 0. Each
iteration scrolls once, reads heights idx, breaks if it equals
last_height, and otherwise continues. Returns the total number of
scrolls performed. -/
def scrollAux (heights : Nat → Nat) : Nat → Nat → Nat → Nat
  | _, idx, 0 => idx
  | last_height, idx, remaining + 1 =>
    let new_height := heights idx
    if new_height = last_height then idx + 1
    else scrollAux heights new_height (idx + 1) remaining

/-- The scroll loop started as in the source: last_height is the initial
page height, scroll_attempts = 0, max_scroll_attempts = 10. -/
def scrollToExhaustion (heights : Nat → Nat) (initialHeight : Nat) : Nat :=
  scrollAux heights initialHeight 0 10

/-- Observable side effects of the retry loop in scrape_openreview
(pdf_scraper.py lines 103-185): a call to setup_firefox_driver, the
backoff sleep in the except branch, and the driver.quit in the finally
branch (with the flag recording whether quit itself raised and was only
logged). -/
inductive SEvent where
  | setup
  | backoff (secs : Nat)
  | teardown (quitRaisedAndWasLogged : Bool)
deriving DecidableEq

/-- Whether an event is a setup_firefox_driver call. -/
def isSetup : SEvent → Bool
  | SEvent.setup => true
  | _ => false

/-- Whether an event is a backoff sleep. -/
def isBackoff : SEvent → Bool
  | SEvent.backoff _ => true
  | _ => false

/-- Embedding of the retry loop of scrape_openreview (pdf_scraper.py
lines 103-185). Oracles: attemptRes n is the outcome of attempt n (the
paper list returned, or the exception raised anywhere inside the
attempt); created n tells whether setup_firefox_driver succeeded in
attempt n (so the driver variable became non-None); tdFails n tells
whether driver.quit raised in the finally branch of attempt n (caught
and logged there, never propagated). The loop state is re-indexed:
idx is the current value of retry_count and remaining =
max_retries - retry_count, so the guard retry_count < max_retries
becomes remaining > 0; live records whether the driver variable is
non-None when the finally branch runs. Per the source, a failed
non-final attempt sleeps 5 seconds in the except branch before the
finally branch quits the driver. A result of none models the implicit
None returned when the while loop is never entered. -/
def scrapeAux (attemptRes : Nat → Except String (List (String × String)))
    (created : Nat → Bool) (tdFails : Nat → Bool) :
    Bool → Nat → Nat →
      Option (Except String (List (String × String))) × List SEvent
  | _, _, 0 => (none, [])
  | live, idx, remaining + 1 =>
    let live2 := live || created idx
    let td : List SEvent :=
      if live2 then [SEvent.teardown (tdFails idx)] else []
    match attemptRes idx with
    | Except.ok papers => (some (Except.ok papers), SEvent.setup :: td)
    | Except.error err =>
      if remaining = 0 then (some (Except.error err), SEvent.setup :: td)
      else
        let rest := scrapeAux attemptRes created tdFails live2 (idx + 1) remaining
        (rest.1, SEvent.setup :: SEvent.backoff 5 :: (td ++ rest.2))

/-- The retry loop started as in the source: driver = None,
retry_count = 0. -/
def scrape_openreview (attemptRes : Nat → Except String (List (String × String)))
    (created : Nat → Bool) (tdFails : Nat → Bool) (max_retries : Nat) :
    Option (Except String (List (String × String))) × List SEvent :=
  scrapeAux attemptRes created tdFails false 0 max_retries

/-- Title normalization as the spec words it: strip characters outside
printable ASCII, then replace whitespace by a single separator (the
underscore used by the id). Stated from the spec for comparison with
deriveId, which is the embedding of main.py lines 50-52. -/
def specNormalizeTitle (title : String) : String :=
  String.mk ((collapseSpaces (title.data.filter isPrintableAscii)).map
    fun c => if c = ' ' then '_' else c)

/-- Identifier shape as the spec words it: the normalized title followed
by underscore-separated conference, year, track, submission type and
platform. -/
def specDerivedId (title conference : String) (year : Nat)
    (track submissionType platform : String) : String :=
  specNormalizeTitle title ++ "_" ++ conference ++ "_" ++ toString year ++
    "_" ++ track ++ "_" ++ submissionType ++ "_" ++ platform

/-- Pairwise distinctness of the id column across the store, the
invariant enforced by the PRIMARY KEY declaration on Paper.id
(sql.py line 13). -/
def uniqueIds : List Paper → Bool
  | [] => true
  | p :: rest => rest.all (fun q => q.id != p.id) && uniqueIds rest

/-- Example configuration used to evaluate the embedding on concrete
inputs. -/
def exampleConfig : Config :=
  { conference := "ICLR", year := 2024, track := "Poster",
    submission_type := "oral", platform := "openreview",
    output_dir := "out", delay := 2, content_cap := 0 }

/-- Example store row for the title A under exampleConfig, fully
processed (non-empty summary). -/
def examplePaperDone : Paper :=
  { id := "A_ICLR_2024_Poster_oral_openreview", title := "A",
    conference := "ICLR", year := 2024, track := "Poster",
    submission_type := "oral", platform := "openreview",
    pdf_url := "u", pdf_path := "out/A_ICLR_2024_Poster_oral_openreview.pdf",
    content := "text", summary := "a summary" }

/-- Example store row for the title A under exampleConfig with an empty
summary, as left behind by an interrupted run. -/
def examplePartialPaper : Paper :=
  { examplePaperDone with pdf_path := "", content := "", summary := "" }

/-- Example listing entry for the title A whose download, extraction and
summarization all succeed. -/
def exampleEntry : EntryWorld :=
  { title := "A", url := "u", httpResp := ⟨200, "body"⟩,
    extract := Except.ok "text", summarize := Except.ok "a summary" }

/-- Example listing entry for the title B whose extractor raises. -/
def exampleBadEntry : EntryWorld :=
  { title := "B", url := "v", httpResp := ⟨200, "body"⟩,
    extract := Except.error "boom", summarize := Except.ok "a summary" }

theorem get_papers_of_mem (db : List Paper) (p : Paper)
    (hu : uniqueIds db = true) (hmem : p ∈ db) :
    get_papers db p.id = [p] := by
  induction db with
  | nil => cases hmem
  | cons q rest ih =>
    rw [uniqueIds, Bool.and_eq_true, List.all_eq_true] at hu
    obtain ⟨hall, hurest⟩ := hu
    rcases List.mem_cons.mp hmem with hpq | hprest
    · subst hpq
      have hnil : rest.filter (fun r => r.id == p.id) = [] := by
        rw [List.filter_eq_nil_iff]
        intro r hr
        have := hall r hr
        simp only [bne_iff_ne, ne_eq] at this
        simp [this]
      simp [get_papers, List.filter_cons, hnil]
    · have hne : (q.id == p.id) = false := by
        have := hall p hprest
        simp only [bne_iff_ne, ne_eq] at this
        simp [Ne.symm this]
      have := ih hurest hprest
      simp only [get_papers] at this ⊢
      simp [List.filter_cons, hne, this]

/-- C1: if the derived id of a listing entry already has a store record
with a non-empty summary, the per-paper step transitions directly to
skipped: it produces no download, extraction, summarization, store-write
or sleep event and leaves the store unchanged. -/
theorem c1_resume_skip (cfg : Config) (db : List Paper) (e : EntryWorld)
    (p : Paper) (hu : uniqueIds db = true) (hmem : p ∈ db)
    (hid : p.id = deriveId cfg e.title) (hsum : p.summary ≠ "") :
    processEntry cfg db e = (StepOutcome.skipped, [], db) := by
  have hq : get_papers db (deriveId cfg e.title) = [p] := by
    rw [← hid]; exact get_papers_of_mem db p hu hmem
  have hap : alreadyProcessed (get_papers db (deriveId cfg e.title)) = true := by
    rw [hq, alreadyProcessed]
    exact bne_iff_ne.mpr hsum
  simp [processEntry, hap]

theorem c1_resume_skip_witness :
    processEntry exampleConfig [examplePaperDone] exampleEntry =
      (StepOutcome.skipped, [], [examplePaperDone]) :=
  c1_resume_skip exampleConfig [examplePaperDone] exampleEntry
    examplePaperDone (by decide) (by decide) (by decide) (by decide)

theorem paperCtor_raises (p : Paper) :
    paperCtor p =
      Except.error
        "TypeError: conference is an invalid keyword argument for Paper" :=
  rfl

/-- C2: evaluation of the per-paper step at the failing inputs for the
resume retry law, both with a partial (empty-summary) record for the
derived id in the store and with no record at all. In both cases every
stage succeeds and the step does invoke the downloader, extractor and
summarizer, but the Paper constructor at the persisted step raises
TypeError (main.py passes conference, year, track and submission_type
keyword arguments that sql.py declares no columns for), so add_entry is
never invoked, no complete record is persisted, the store is unchanged,
and the uncaught error aborts the run. -/
theorem c2_reprocess_persist_fails :
    processEntry exampleConfig [examplePartialPaper] exampleEntry =
      (StepOutcome.ctorError
         "TypeError: conference is an invalid keyword argument for Paper",
       [Event.evDownload, Event.evExtract, Event.evSummarize],
       [examplePartialPaper])
  ∧ processEntry exampleConfig [] exampleEntry =
      (StepOutcome.ctorError
         "TypeError: conference is an invalid keyword argument for Paper",
       [Event.evDownload, Event.evExtract, Event.evSummarize], []) := by
  constructor <;> decide

theorem processEntry_downloadFailed (cfg : Config) (db : List Paper)
    (e : EntryWorld)
    (hskip : alreadyProcessed (get_papers db (deriveId cfg e.title)) = false)
    (h200 : e.httpResp.status_code ≠ 200) :
    processEntry cfg db e =
      (StepOutcome.downloadFailed, [Event.evDownload], db) := by
  simp [processEntry, download_pdf, hskip, h200]

theorem processEntry_extractError (cfg : Config) (db : List Paper)
    (e : EntryWorld) (err : String)
    (hskip : alreadyProcessed (get_papers db (deriveId cfg e.title)) = false)
    (h200 : e.httpResp.status_code = 200)
    (hext : e.extract = Except.error err) :
    processEntry cfg db e =
      (StepOutcome.stageError err, [Event.evDownload, Event.evExtract], db) := by
  simp [processEntry, download_pdf, hskip, h200, hext]

theorem processEntry_summarizeError (cfg : Config) (db : List Paper)
    (e : EntryWorld) (err raw : String)
    (hskip : alreadyProcessed (get_papers db (deriveId cfg e.title)) = false)
    (h200 : e.httpResp.status_code = 200)
    (hext : e.extract = Except.ok raw)
    (hsum : e.summarize = Except.error err) :
    processEntry cfg db e =
      (StepOutcome.stageError err,
       [Event.evDownload, Event.evExtract, Event.evSummarize], db) := by
  simp [processEntry, download_pdf, hskip, h200, hext, hsum]

/-- C3 counterexample: a two-entry batch over an empty store in which the
extractor raises on the first entry. The claim requires the failure to be
caught with processing continuing to the second entry, hence a finished
batch; the embedded loop instead aborts (the exception is uncaught in
main.py lines 48-96), and the trace shows the second entry was never
reached. -/
theorem c3_claim_counterexample :
    ¬ ((runBatch exampleConfig [] [exampleBadEntry, exampleEntry]).1.isFinished = true
        ∧ (runBatch exampleConfig [] [exampleBadEntry, exampleEntry]).2.count
            Event.evDownload = 2) := by
  decide

/-- C3 amended: only a download failure is handled per paper (no record
written, processing continues with the next entry); an exception from
the text extractor or the summarizer is not caught at the orchestrator
boundary: it aborts the batch with no record written for that paper and
no later entry processed. The batch as a whole also aborts when the
listing fetcher fails. -/
theorem c3_failure_policy_amended (cfg : Config) (db : List Paper)
    (e : EntryWorld) (rest : List EntryWorld) :
    (alreadyProcessed (get_papers db (deriveId cfg e.title)) = false →
      e.httpResp.status_code ≠ 200 →
      runBatch cfg db (e :: rest) =
        ((runBatch cfg db rest).1,
         Event.evDownload :: (runBatch cfg db rest).2))
  ∧ (∀ err, alreadyProcessed (get_papers db (deriveId cfg e.title)) = false →
      e.httpResp.status_code = 200 → e.extract = Except.error err →
      runBatch cfg db (e :: rest) =
        (BatchResult.abortedRun err db, [Event.evDownload, Event.evExtract]))
  ∧ (∀ err raw,
      alreadyProcessed (get_papers db (deriveId cfg e.title)) = false →
      e.httpResp.status_code = 200 → e.extract = Except.ok raw →
      e.summarize = Except.error err →
      runBatch cfg db (e :: rest) =
        (BatchResult.abortedRun err db,
         [Event.evDownload, Event.evExtract, Event.evSummarize])) := by
  refine ⟨fun hskip h200 => ?_, fun err hskip h200 hext => ?_,
    fun err raw hskip h200 hext hsum => ?_⟩
  · rw [runBatch, processEntry_downloadFailed cfg db e hskip h200]
    rfl
  · rw [runBatch, processEntry_extractError cfg db e err hskip h200 hext]
  · rw [runBatch, processEntry_summarizeError cfg db e err raw hskip h200 hext hsum]

theorem c3_failure_policy_witness :
    runBatch exampleConfig []
        [{ exampleEntry with httpResp := ⟨404, ""⟩ }] =
      ((runBatch exampleConfig [] []).1,
       Event.evDownload :: (runBatch exampleConfig [] []).2)
  ∧ runBatch exampleConfig [] [exampleBadEntry] =
      (BatchResult.abortedRun "boom" [], [Event.evDownload, Event.evExtract])
  ∧ runBatch exampleConfig []
        [{ exampleEntry with summarize := Except.error "quota" }] =
      (BatchResult.abortedRun "quota" [],
       [Event.evDownload, Event.evExtract, Event.evSummarize]) :=
  ⟨(c3_failure_policy_amended exampleConfig [] _ []).1 (by decide) (by decide),
   (c3_failure_policy_amended exampleConfig [] _ []).2.1 "boom" (by decide)
     (by decide) (by decide),
   (c3_failure_policy_amended exampleConfig [] _ []).2.2 "quota" "text"
     (by decide) (by decide) (by decide) (by decide)⟩

/-- C4 counterexample: an entry skipped as already processed. The claim
requires the configured delay (2 here) to be enforced after this entry
as well; the embedded loop body reaches the continue on main.py line 58
before the sleep on line 96, so no sleep event occurs. -/
theorem c4_claim_counterexample :
    (processEntry exampleConfig [examplePaperDone] exampleEntry).1 =
        StepOutcome.skipped
  ∧ ¬ (Event.evSleep exampleConfig.delay ∈
        (processEntry exampleConfig [examplePaperDone] exampleEntry).2.1) := by
  decide

/-- C4 amended: the orchestrator pauses for the configured scraping
delay after an entry exactly when that entry completed the whole
pipeline and was persisted; entries that are skipped as already
processed, fail at download, or abort in a later stage move on without
the delay. -/
theorem c4_delay_amended (cfg : Config) (db : List Paper) (e : EntryWorld) :
    (∃ p, (processEntry cfg db e).1 = StepOutcome.persisted p) ↔
      Event.evSleep cfg.delay ∈ (processEntry cfg db e).2.1 := by
  by_cases hskip : alreadyProcessed (get_papers db (deriveId cfg e.title))
  · simp [processEntry, hskip]
  · by_cases h200 : e.httpResp.status_code = 200
    · rcases hext : e.extract with err | raw
      · simp [processEntry, download_pdf, hskip, h200, hext]
      · rcases hsum : e.summarize with err | s
        · simp [processEntry, download_pdf, hskip, h200, hext, hsum]
        · simp [processEntry, download_pdf, hskip, h200, hext, hsum,
            paperCtor_raises]
    · simp [processEntry, download_pdf, hskip, h200]

theorem scrapeAux_result_ignores_teardown
    (a : Nat → Except String (List (String × String)))
    (c t t' : Nat → Bool) :
    ∀ r live idx,
      (scrapeAux a c t live idx r).1 = (scrapeAux a c t' live idx r).1 := by
  intro r
  induction r with
  | zero => intro live idx; rfl
  | succ n ih =>
    intro live idx
    simp only [scrapeAux]
    cases h : a idx with
    | ok papers => simp [h]
    | error err =>
      by_cases hn : n = 0
      · simp [h, hn]
      · simp [h, hn, ih]

theorem scrapeAux_all_fail
    (a : Nat → Except String (List (String × String)))
    (c t : Nat → Bool) (hfail : ∀ n, ∃ err, a n = Except.error err) :
    ∀ r live idx, 1 ≤ r →
      (∃ err, (scrapeAux a c t live idx r).1 = some (Except.error err))
      ∧ (scrapeAux a c t live idx r).2.countP isSetup = r
      ∧ (scrapeAux a c t live idx r).2.countP isBackoff = r - 1
      ∧ (∀ ev ∈ (scrapeAux a c t live idx r).2, isBackoff ev = true →
          ev = SEvent.backoff 5) := by
  intro r
  induction r with
  | zero => intro live idx h; omega
  | succ n ih =>
    intro live idx _
    obtain ⟨err, herr⟩ := hfail idx
    by_cases hn : n = 0
    · subst hn
      refine ⟨⟨err, ?_⟩, ?_, ?_, ?_⟩ <;>
        cases hl : live || c idx <;>
          simp [scrapeAux, herr, hl, isSetup, isBackoff, List.countP_cons]
    · have hn1 : 1 ≤ n := Nat.one_le_iff_ne_zero.mpr hn
      obtain ⟨⟨err2, hres⟩, hsetup, hback, hb5⟩ :=
        ih (live || c idx) (idx + 1) hn1
      have key : ∃ td : List SEvent,
          scrapeAux a c t live idx (n + 1) =
            ((scrapeAux a c t (live || c idx) (idx + 1) n).1,
             SEvent.setup :: SEvent.backoff 5 ::
               (td ++ (scrapeAux a c t (live || c idx) (idx + 1) n).2))
          ∧ td.countP isSetup = 0 ∧ td.countP isBackoff = 0
          ∧ (∀ ev ∈ td, isBackoff ev = false) := by
        refine ⟨if (live || c idx) = true then [SEvent.teardown (t idx)]
          else [], ?_, ?_, ?_, ?_⟩
        · simp [scrapeAux, herr, hn]
        · split <;> simp [isSetup]
        · split <;> simp [isBackoff]
        · split <;> simp [isBackoff]
      obtain ⟨td, hstep, htds, htdb, htdno⟩ := key
      refine ⟨⟨err2, ?_⟩, ?_, ?_, ?_⟩
      · rw [hstep]; exact hres
      · rw [hstep]
        simp [List.countP_cons, List.countP_append, htds, hsetup, isSetup,
          isBackoff]
      · rw [hstep]
        simp [List.countP_cons, List.countP_append, htdb, hback, isSetup,
          isBackoff]
        omega
      · rw [hstep]
        intro ev hev hbev
        simp only [List.mem_cons, List.mem_append] at hev
        rcases hev with h | h | h | h
        · subst h; simp [isBackoff] at hbev
        · exact h
        · rw [htdno ev h] at hbev; cases hbev
        · exact hb5 ev h hbev

/-- C5: when every attempt raises, the retry loop of scrape_openreview
makes exactly max_retries attempts (one setup_firefox_driver call each,
so each attempt gets a fresh session), sleeps the fixed 5-second backoff
between consecutive attempts (max_retries - 1 backoffs, each of 5
seconds), re-raises after the last failed attempt (some error result,
aborting the run), and the outcome never depends on whether the
driver.quit teardown in the finally branch raised (such failures are
only logged). -/
theorem c5_retry_exhaustion
    (attemptRes : Nat → Except String (List (String × String)))
    (created tdFails : Nat → Bool) (max_retries : Nat)
    (hmr : 1 ≤ max_retries)
    (hfail : ∀ n, ∃ err, attemptRes n = Except.error err) :
    (∃ err, (scrape_openreview attemptRes created tdFails max_retries).1 =
      some (Except.error err))
  ∧ (scrape_openreview attemptRes created tdFails max_retries).2.countP
      isSetup = max_retries
  ∧ (scrape_openreview attemptRes created tdFails max_retries).2.countP
      isBackoff = max_retries - 1
  ∧ (∀ ev ∈ (scrape_openreview attemptRes created tdFails max_retries).2,
      isBackoff ev = true → ev = SEvent.backoff 5)
  ∧ (∀ tdFails2 : Nat → Bool,
      (scrape_openreview attemptRes created tdFails2 max_retries).1 =
        (scrape_openreview attemptRes created tdFails max_retries).1) := by
  obtain ⟨h1, h2, h3, h4⟩ :=
    scrapeAux_all_fail attemptRes created tdFails hfail max_retries false 0 hmr
  exact ⟨h1, h2, h3, h4, fun tdFails2 =>
    scrapeAux_result_ignores_teardown attemptRes created tdFails2 tdFails
      max_retries false 0⟩

theorem c5_retry_exhaustion_witness :
    (scrape_openreview (fun _ => Except.error "setup failed")
        (fun _ => false) (fun _ => false) 3).2.countP isSetup = 3
  ∧ (scrape_openreview (fun _ => Except.error "setup failed")
        (fun _ => false) (fun _ => false) 3).2.countP isBackoff = 2 :=
  ⟨(c5_retry_exhaustion (fun _ => Except.error "setup failed")
      (fun _ => false) (fun _ => false) 3 (by decide)
      (fun _ => ⟨"setup failed", rfl⟩)).2.1,
   (c5_retry_exhaustion (fun _ => Except.error "setup failed")
      (fun _ => false) (fun _ => false) 3 (by decide)
      (fun _ => ⟨"setup failed", rfl⟩)).2.2.1⟩

theorem scrollAux_le (heights : Nat → Nat) :
    ∀ r last idx, scrollAux heights last idx r ≤ idx + r := by
  intro r
  induction r with
  | zero => intro last idx; simp [scrollAux]
  | succ n ih =>
    intro last idx
    simp only [scrollAux]
    by_cases h : heights idx = last
    · simp only [if_pos h]; omega
    · simp only [if_neg h]
      have := ih (heights idx) (idx + 1)
      omega

theorem scrollAux_stops_at_stable (heights : Nat → Nat) (h0 : Nat) :
    ∀ r idx last k, last = heightSeq heights h0 idx → idx ≤ k →
      k < idx + r → heights k = heightSeq heights h0 k →
      scrollAux heights last idx r ≤ k + 1 := by
  intro r
  induction r with
  | zero => intro idx last k _ _ hk _; omega
  | succ n ih =>
    intro idx last k hlast hik hk hstable
    simp only [scrollAux]
    by_cases h : heights idx = last
    · simp only [if_pos h]; omega
    · simp only [if_neg h]
      have hik2 : idx + 1 ≤ k := by
        rcases Nat.lt_or_ge idx k with hlt | hge
        · omega
        · exfalso
          have : idx = k := by omega
          subst this
          exact h (by rw [hstable, hlast])
      exact ih (idx + 1) (heights idx) k rfl hik2 (by omega) hstable

theorem scrollAux_never_stable (heights : Nat → Nat) (h0 : Nat) :
    ∀ r idx last, last = heightSeq heights h0 idx →
      (∀ j, j < idx + r → heights j ≠ heightSeq heights h0 j) →
      scrollAux heights last idx r = idx + r := by
  intro r
  induction r with
  | zero => intro idx last _ _; simp [scrollAux]
  | succ n ih =>
    intro idx last hlast hns
    simp only [scrollAux]
    have h : heights idx ≠ last := by
      rw [hlast]
      exact hns idx (by omega)
    simp only [if_neg h]
    have := ih (idx + 1) (heights idx) rfl (fun j hj => hns j (by omega))
    omega

/-- C6: the scroll-to-exhaustion loop always terminates (the embedding
is a total function): it performs at most 10 scroll iterations, it stops
as soon as the page height read after a scroll equals the height before
that scroll (at most k + 1 scrolls when the height stabilizes at scroll
k), and it performs exactly the capped 10 iterations when the height
changes on every scroll, as under simulated infinite growth. -/
theorem c6_scroll_bound (heights : Nat → Nat) (h0 : Nat) :
    scrollToExhaustion heights h0 ≤ 10
  ∧ (∀ k, heights k = heightSeq heights h0 k →
      scrollToExhaustion heights h0 ≤ k + 1)
  ∧ ((∀ k, k < 10 → heights k ≠ heightSeq heights h0 k) →
      scrollToExhaustion heights h0 = 10) := by
  refine ⟨scrollAux_le heights 10 h0 0, fun k hk => ?_, fun hns => ?_⟩
  · rcases Nat.lt_or_ge k 10 with hlt | hge
    · exact scrollAux_stops_at_stable heights h0 10 0 h0 k rfl (by omega)
        (by omega) hk
    · have := scrollAux_le heights 10 h0 0
      show scrollAux heights h0 0 10 ≤ k + 1
      omega
  · exact scrollAux_never_stable heights h0 10 0 h0 rfl
      (fun j hj => hns j (by omega))

theorem c6_scroll_bound_witness :
    scrollToExhaustion (fun _ => 5) 5 ≤ 0 + 1
  ∧ scrollToExhaustion (fun k => k + 1) 0 = 10 :=
  ⟨(c6_scroll_bound (fun _ => 5) 5).2.1 0 rfl,
   (c6_scroll_bound (fun k => k + 1) 0).2.2 (by decide)⟩

/-- C7: download_pdf writes the raw response body to
output_dir/filename and returns that path exactly when the HTTP status
is 200; on any other status it returns the absent result (not an
exception) and performs no write. -/
theorem c7_download_contract (filename url output_dir : String)
    (resp : HttpResponse) :
    (resp.status_code = 200 →
      download_pdf filename url output_dir resp =
        (some (output_dir ++ "/" ++ filename),
         [(output_dir ++ "/" ++ filename, resp.content)]))
  ∧ (resp.status_code ≠ 200 →
      download_pdf filename url output_dir resp = (none, [])) := by
  constructor <;> intro h <;> simp [download_pdf, h]

theorem c7_download_contract_witness :
    download_pdf "f.pdf" "u" "out" ⟨200, "body"⟩ =
      (some "out/f.pdf", [("out/f.pdf", "body")])
  ∧ download_pdf "f.pdf" "u" "out" ⟨404, ""⟩ = (none, []) :=
  ⟨(c7_download_contract "f.pdf" "u" "out" ⟨200, "body"⟩).1 rfl,
   (c7_download_contract "f.pdf" "u" "out" ⟨404, ""⟩).2 (by decide)⟩

/-- C8: identifier derivation is a pure deterministic function of the
title and the configuration tuple (deriving it twice gives the same
string, which in a pure embedding is definitional), and the derived id
equals the normalized title, non-printable-ASCII stripped and
whitespace replaced by a single separator, followed by the
underscore-separated conference, year, track, submission type and
platform. The title normalization is modelled from the spec because
clean_text lives in pdf_parser.py, which is not among the source
files. -/
theorem c8_id_derivation (cfg : Config) (title : String) :
    deriveId cfg title = deriveId cfg title
  ∧ deriveId cfg title =
      specDerivedId title cfg.conference cfg.year cfg.track
        cfg.submission_type cfg.platform :=
  ⟨rfl, rfl⟩

/-- C9: evaluation of the schema mismatch behind the persisted step.
The orchestrator (main.py lines 78-90) passes conference, year, track
and submission_type to the Paper constructor, but the Paper model in
sql.py declares no such columns (it has collection instead), so those
provenance fields cannot be persisted with the record: the claim is
right about the intended record and the code cannot satisfy it. -/
theorem c9_provenance_fields_missing :
    ("conference" ∈ orchestratorRecordFields ∧
      "conference" ∉ paperTableColumns)
  ∧ ("year" ∈ orchestratorRecordFields ∧ "year" ∉ paperTableColumns)
  ∧ ("track" ∈ orchestratorRecordFields ∧ "track" ∉ paperTableColumns)
  ∧ ("submission_type" ∈ orchestratorRecordFields ∧
      "submission_type" ∉ paperTableColumns) := by
  decide

/-- C10: add_entry always performs an insert and never an update: when
some record in the store already has the id of the new record the
insert violates the primary-key uniqueness of id and fails with the
store left unchanged, and when the id is fresh the new record is
appended with every existing record untouched. -/
theorem c10_add_entry_insert_only (db : List Paper) (p : Paper) :
    ((∃ q ∈ db, q.id = p.id) →
      add_entry db p = Except.error "IntegrityError")
  ∧ ((∀ q ∈ db, q.id ≠ p.id) →
      add_entry db p = Except.ok (db ++ [p])) := by
  constructor
  · rintro ⟨q, hq, hid⟩
    have hany : db.any (fun r => r.id == p.id) = true :=
      List.any_eq_true.mpr ⟨q, hq, by simp [hid]⟩
    simp [add_entry, hany]
  · intro h
    have hany : ¬ (db.any (fun r => r.id == p.id) = true) := by
      rw [List.any_eq_true]
      rintro ⟨q, hq, hqe⟩
      exact h q hq (by simpa using hqe)
    simp [add_entry, hany]

theorem c10_add_entry_insert_only_witness :
    add_entry [examplePartialPaper] examplePartialPaper =
      Except.error "IntegrityError"
  ∧ add_entry [] examplePartialPaper = Except.ok [examplePartialPaper] :=
  ⟨(c10_add_entry_insert_only [examplePartialPaper] examplePartialPaper).1
      ⟨examplePartialPaper, List.mem_singleton.mpr rfl, rfl⟩,
   (c10_add_entry_insert_only [] examplePartialPaper).2
      (fun q hq => absurd hq (List.not_mem_nil q))⟩

end PubSummarizer
